import Mathlib

/-!
Shallow embedding of the StreamVibe movie-recommendation backend
(Express + Mongoose, `src/routes/*.js`, `src/models/*.js`).

Conventions of the embedding:
* the Mongo collections become Lean lists (`List User`, `List Review`,
  `List Watchlist`); `findOne` becomes `List.find?` and a
  find-mutate-save sequence becomes `updateFirst`;
* timestamps (`Date.now()`) are an explicit `now : Nat` in milliseconds;
* `Math.random()`-based code generation takes the random draw as an
  explicit argument `r : Nat`;
* the outcome of an outbound e-mail send (an external collaborator that
  the route code branches on via try/catch) is an explicit boolean
  argument `deliveryOk`;
* bcrypt hashing is modelled by a one-way wrapper type `Hashed`:
  the route code only ever compares a candidate password against the
  stored hash, which `comparePassword` models faithfully.
-/

namespace StreamVibe

/-- Replace the first element satisfying `p` by its image under `f`
(models Mongoose `findOne` + mutate + `save`). -/
def updateFirst {α : Type} (p : α → Bool) (f : α → α) : List α → List α
  | [] => []
  | x :: xs => if p x then f x :: xs else x :: updateFirst p f xs

/-- Remove the first occurrence of `a` (models `Array.prototype.splice`
at the index found by `findIndex`). -/
def removeFirst (a : String) : List String → List String
  | [] => []
  | x :: xs => if x == a then xs else x :: removeFirst a xs

/-- JS `String.prototype.trim`: strip leading and trailing
whitespace (structurally, so that it evaluates in the kernel). -/
def jsTrim (s : String) : String :=
  ⟨((s.data.dropWhile Char.isWhitespace).reverse.dropWhile
    Char.isWhitespace).reverse⟩

/-- JS `x || null` on an optional string: empty string is falsy. -/
def jsOrNull (s : Option String) : Option String :=
  match s with
  | none => none
  | some v => if v == "" then none else some v

/-! ### Credential and token codec (`src/models/User.js`, `src/routes/auth.js`) -/

/-- A bcrypt hash of a plain password (`bcrypt.hash(plain, 12)`):
one-way, only usable through `comparePassword`. -/
structure Hashed where
  ofPlain : String
deriving DecidableEq, Repr

/-- `userSchema.pre("save")`: hash the password before persisting. -/
def hashPassword (plain : String) : Hashed := ⟨plain⟩

/-- `userSchema.methods.comparePassword` (`bcrypt.compare`). -/
def comparePassword (candidate : String) (h : Hashed) : Bool :=
  hashPassword candidate == h

/-- `generateVerificationCode` (`src/routes/auth.js` lines 17-20):
`Math.floor(100000 + Math.random() * 900000).toString()`.
`r` is the random draw; `r % 900000` ranges over the same
`0..899999` as `Math.floor(Math.random() * 900000)`. -/
def generateVerificationCode (r : Nat) : String :=
  toString (100000 + r % 900000)

/-- `generateToken` (`jwt.sign({ userId }, ...)`): a signed token
encoding the account identifier. -/
def generateToken (userId : String) : String :=
  String.append "signed:" userId

/-! ### Account record (`src/models/User.js`) -/

/-- An entry of `favoriteMovies` / `watchedMovies`. -/
structure FavMovie where
  movieId : Nat
  title : String
  poster : Option String
  addedAt : Nat
deriving DecidableEq, Repr

/-- The `User` document.  `password` is stored only as its hash
(the pre-save hook is folded into every write of the field). -/
structure User where
  username : String
  email : String
  password : Hashed
  isEmailVerified : Bool
  emailVerificationToken : Option String
  emailVerificationExpires : Option Nat
  passwordResetToken : Option String
  passwordResetExpires : Option Nat
  favoriteMovies : List FavMovie
deriving DecidableEq, Repr

/-- Response shape `{ success, message }` plus the HTTP status. -/
structure ApiResponse where
  status : Nat
  success : Bool
  message : String
deriving DecidableEq, Repr

/-- Response of `POST /register`. -/
structure RegisterResponse where
  status : Nat
  success : Bool
  message : String
  token : Option String
  emailVerificationRequired : Option Bool
deriving DecidableEq, Repr

/-- Response of `POST /login`. -/
structure LoginResponse where
  status : Nat
  success : Bool
  message : String
  token : Option String
  emailVerificationRequired : Option Bool
  email : Option String
deriving DecidableEq, Repr

/-- `POST /register` (`src/routes/auth.js` lines 23-80).
Checks `findOne({$or:[{email},{username}]})`, creates the user with a
fresh verification code expiring in one hour, and returns a provisional
token with `emailVerificationRequired = true`.  E-mail delivery failure
is swallowed (`// Continue registration even if email fails`). -/
def register (db : List User) (username email password : String)
    (r now : Nat) : RegisterResponse × List User :=
  match db.find? (fun u => u.email == email || u.username == username) with
  | some _ =>
      ({ status := 400, success := false, message := "User already exists",
         token := none, emailVerificationRequired := none }, db)
  | none =>
      let code := generateVerificationCode r
      let user : User :=
        { username := username, email := email,
          password := hashPassword password,
          isEmailVerified := false,
          emailVerificationToken := some code,
          emailVerificationExpires := some (now + 60 * 60 * 1000),
          passwordResetToken := none, passwordResetExpires := none,
          favoriteMovies := [] }
      ({ status := 201, success := true,
         message := "User created successfully. Please check your email for the verification code.",
         token := some (generateToken username),
         emailVerificationRequired := some true }, db ++ [user])

/-- `POST /login` (`src/routes/auth.js` lines 83-138).  Unknown email
and wrong password produce the identical `Invalid credentials`
response; an unverified account gets a 403 with
`emailVerificationRequired` and no token. -/
def login (db : List User) (email password : String) : LoginResponse :=
  match db.find? (fun u => u.email == email) with
  | none =>
      { status := 400, success := false, message := "Invalid credentials",
        token := none, emailVerificationRequired := none, email := none }
  | some user =>
      if comparePassword password user.password then
        if user.isEmailVerified then
          { status := 200, success := true, message := "Login successful",
            token := some (generateToken user.username),
            emailVerificationRequired := some false, email := none }
        else
          { status := 403, success := false,
            message := "Please verify your email address before logging in. Check your inbox for the verification code.",
            token := none, emailVerificationRequired := some true,
            email := some user.email }
      else
        { status := 400, success := false, message := "Invalid credentials",
          token := none, emailVerificationRequired := none, email := none }

/-- The `findOne` filter of `POST /verify-email`:
`{ email, emailVerificationToken: code, emailVerificationExpires: { $gt: Date.now() } }`. -/
def verifyMatch (email code : String) (now : Nat) (u : User) : Bool :=
  u.email == email && u.emailVerificationToken == some code &&
    (match u.emailVerificationExpires with
     | some t => now < t
     | none => false)

/-- `POST /verify-email` (`src/routes/auth.js` lines 141-190).
On success sets `isEmailVerified` and clears token and expiry;
the welcome e-mail is best-effort and does not affect the response. -/
def verifyEmail (db : List User) (email code : String) (now : Nat) :
    ApiResponse × List User :=
  if code == "" || email == "" then
    ({ status := 400, success := false,
       message := "Verification code and email are required" }, db)
  else
    match db.find? (verifyMatch email code now) with
    | none =>
        ({ status := 400, success := false,
           message := "Invalid or expired verification code" }, db)
    | some _ =>
        ({ status := 200, success := true,
           message := "Email verified successfully! Welcome to StreamVibe." },
         updateFirst (verifyMatch email code now)
           (fun u => { u with isEmailVerified := true,
                              emailVerificationToken := none,
                              emailVerificationExpires := none }) db)

/-- `POST /resend-verification-code` (`src/routes/auth.js` lines 193-247).
Regenerates the code and expiry (overwriting any prior one) before the
send; a failed send is reported as a 500 after the state was saved. -/
def resendVerificationCode (db : List User) (email : String)
    (r now : Nat) (deliveryOk : Bool) : ApiResponse × List User :=
  if email == "" then
    ({ status := 400, success := false, message := "Email is required" }, db)
  else
    match db.find? (fun u => u.email == email) with
    | none =>
        ({ status := 400, success := false, message := "User not found" }, db)
    | some user =>
        if user.isEmailVerified then
          ({ status := 400, success := false,
             message := "Email is already verified" }, db)
        else
          let db1 := updateFirst (fun u => u.email == email)
            (fun u => { u with
              emailVerificationToken := some (generateVerificationCode r),
              emailVerificationExpires := some (now + 60 * 60 * 1000) }) db
          if deliveryOk then
            ({ status := 200, success := true,
               message := "Verification code sent successfully" }, db1)
          else
            ({ status := 500, success := false,
               message := "Failed to send verification code" }, db1)

/-- `POST /forgot-password` (`src/routes/auth.js` lines 316-364).
A non-existent email gets a generic success response; for an existing
account the reset code and expiry are saved before the send, and a
failed send is reported as a 500. -/
def forgotPassword (db : List User) (email : String)
    (r now : Nat) (deliveryOk : Bool) : ApiResponse × List User :=
  if email == "" then
    ({ status := 400, success := false, message := "Email is required" }, db)
  else
    match db.find? (fun u => u.email == email) with
    | none =>
        ({ status := 200, success := true,
           message := "If an account with that email exists, a password reset code has been sent." }, db)
    | some _ =>
        let db1 := updateFirst (fun u => u.email == email)
          (fun u => { u with
            passwordResetToken := some (generateVerificationCode r),
            passwordResetExpires := some (now + 60 * 60 * 1000) }) db
        if deliveryOk then
          ({ status := 200, success := true,
             message := "Password reset code sent successfully" }, db1)
        else
          ({ status := 500, success := false,
             message := "Failed to send password reset code" }, db1)

/-- The `findOne` filter of `POST /reset-password`:
`{ email, passwordResetToken: code, passwordResetExpires: { $gt: Date.now() } }`. -/
def resetMatch (email code : String) (now : Nat) (u : User) : Bool :=
  u.email == email && u.passwordResetToken == some code &&
    (match u.passwordResetExpires with
     | some t => now < t
     | none => false)

/-- `POST /reset-password` (`src/routes/auth.js` lines 367-409).
On success stores the hash of the new password and clears reset token
and expiry. -/
def resetPassword (db : List User) (email code newPassword : String)
    (now : Nat) : ApiResponse × List User :=
  if email == "" || code == "" || newPassword == "" then
    ({ status := 400, success := false,
       message := "Email, code, and new password are required" }, db)
  else
    match db.find? (resetMatch email code now) with
    | none =>
        ({ status := 400, success := false,
           message := "Invalid or expired reset code" }, db)
    | some _ =>
        ({ status := 200, success := true,
           message := "Password reset successfully" },
         updateFirst (resetMatch email code now)
           (fun u => { u with password := hashPassword newPassword,
                              passwordResetToken := none,
                              passwordResetExpires := none }) db)

/-! ### Reviews (`src/models/Review.js`, `src/routes/reviews.js`) -/

/-- An abuse report embedded in a review (`reviewSchema.reports`). -/
structure Report where
  user : String
  reason : String
  createdAt : Nat
deriving DecidableEq, Repr

/-- The `Review` document.  `id` models the Mongo `_id`; `user` holds
the owning account id; `movieId`/`title` are the embedded `movie`
subdocument. -/
structure Review where
  id : Nat
  user : String
  movieId : Nat
  title : String
  rating : Nat
  review : Option String
  spoiler : Bool
  likes : List String
  reports : List Report
deriving DecidableEq, Repr

/-- Response of `POST /reviews/:id/like`. -/
structure LikeResponse where
  status : Nat
  success : Bool
  message : String
  liked : Option Bool
  likesCount : Option Nat
deriving DecidableEq, Repr

/-- The review looked up by `(user, movie.movieId)`. -/
def reviewPairMatch (uid : String) (movieId : Nat) (rv : Review) : Bool :=
  rv.user == uid && rv.movieId == movieId

/-- `POST /reviews` (`src/routes/reviews.js` lines 9-86): create or
update.  The JS falsy-check `!movieId || !title || !rating` rejects
`movieId = 0`, an empty title and `rating = 0`.  An existing review for
the same `(user, movieId)` pair has its rating, body and spoiler flag
updated in place; otherwise a new document (fresh id `newId`) is
appended. -/
def postReview (db : List Review) (uid : String) (movieId : Nat)
    (title : String) (rating : Nat) (body : Option String)
    (spoiler : Option Bool) (newId : Nat) : ApiResponse × List Review :=
  if movieId == 0 || title == "" || rating == 0 then
    ({ status := 400, success := false,
       message := "MovieId, title, and rating are required" }, db)
  else
    match db.find? (reviewPairMatch uid movieId) with
    | some _ =>
        ({ status := 200, success := true,
           message := "Review updated successfully" },
         updateFirst (reviewPairMatch uid movieId)
           (fun rv => { rv with rating := rating, review := body,
                                spoiler := spoiler.getD false }) db)
    | none =>
        ({ status := 201, success := true,
           message := "Review created successfully" },
         db ++ [{ id := newId, user := uid, movieId := movieId,
                  title := title, rating := rating, review := body,
                  spoiler := spoiler.getD false,
                  likes := [], reports := [] }])

/-- `POST /reviews/:id/like` (`src/routes/reviews.js` lines 311-367):
toggle the requesting account in the `likes` array (splice out the
first occurrence, or push). -/
def likeReview (db : List Review) (rid : Nat) (uid : String) :
    LikeResponse × List Review :=
  match db.find? (fun rv => rv.id == rid) with
  | none =>
      ({ status := 404, success := false, message := "Review not found",
         liked := none, likesCount := none }, db)
  | some rv =>
      let liked := !(rv.likes.contains uid)
      let newLikes := if rv.likes.contains uid
        then removeFirst uid rv.likes
        else rv.likes ++ [uid]
      ({ status := 200, success := true,
         message := if liked then "Review liked successfully"
                    else "Review unliked successfully",
         liked := some liked, likesCount := some newLikes.length },
       updateFirst (fun rv => rv.id == rid)
         (fun rv => { rv with likes := newLikes }) db)

/-- The likers list of the review with id `rid`, as a client re-fetch
(`GET /reviews/:id`) would observe it. -/
def likesOf (db : List Review) (rid : Nat) : List String :=
  ((db.find? (fun rv => rv.id == rid)).map Review.likes).getD []

/-- `POST /reviews/:id/report` (`src/routes/reviews.js` lines 370-450):
reject an empty (after trim) reason, reject a second report by the same
account, otherwise append one report. -/
def reportReview (db : List Review) (rid : Nat) (uid reason : String)
    (now : Nat) : ApiResponse × List Review :=
  if jsTrim reason == "" then
    ({ status := 400, success := false,
       message := "Report reason is required" }, db)
  else
    match db.find? (fun rv => rv.id == rid) with
    | none =>
        ({ status := 404, success := false, message := "Review not found" }, db)
    | some rv =>
        if rv.reports.any (fun rp => rp.user == uid) then
          ({ status := 400, success := false,
             message := "You have already reported this review" }, db)
        else
          ({ status := 200, success := true,
             message := "Review reported successfully" },
           updateFirst (fun rv => rv.id == rid)
             (fun rv => { rv with reports := rv.reports ++
               [{ user := uid, reason := jsTrim reason, createdAt := now }] }) db)

/-! ### Watchlists (`src/models/Watchlist.js`, `src/routes/watchlists.js`) -/

/-- An entry of a watchlist's `movies` array. -/
structure WMovie where
  movieId : Nat
  title : String
  poster : Option String
  addedAt : Nat
deriving DecidableEq, Repr

/-- The `Watchlist` document. -/
structure Watchlist where
  id : Nat
  user : String
  name : String
  description : String
  movies : List WMovie
  isPublic : Bool
deriving DecidableEq, Repr

/-- Response of `POST /watchlists/:id/movies`. -/
structure WatchlistResponse where
  status : Nat
  success : Bool
  message : String
  data : Option Watchlist
deriving DecidableEq, Repr

/-- The `movieData` object the route builds before pushing
(`{ movieId: numericMovieId, title: title trimmed, poster: poster || null }`). -/
def movieData (movieId : Nat) (title : String) (poster : Option String)
    (now : Nat) : WMovie :=
  { movieId := movieId, title := jsTrim title, poster := jsOrNull poster,
    addedAt := now }

/-- `POST /watchlists/:id/movies` (`src/routes/watchlists.js` lines
252-350).  Ownership is checked by the `findOne({_id, user})` filter
(404 covers both absence and foreign ownership); a `movieId` already in
the list is a 400; the save then runs the schema validation
(`movies.length <= 1000`, reported as a 400 validation error) and the
duplicate-checking pre-save hook (whose generic `Error` falls into the
500 handler). -/
def addMovieToWatchlist (db : List Watchlist) (wid : Nat) (uid : String)
    (movieId : Nat) (title : String) (poster : Option String)
    (now : Nat) : WatchlistResponse × List Watchlist :=
  if movieId == 0 || title == "" then
    ({ status := 400, success := false,
       message := "Movie ID and title are required", data := none }, db)
  else
    match db.find? (fun w => w.id == wid && w.user == uid) with
    | none =>
        ({ status := 404, success := false,
           message := "Watchlist not found or you do not have permission to modify it",
           data := none }, db)
    | some w =>
        if w.movies.any (fun m => m.movieId == movieId) then
          ({ status := 400, success := false,
             message := "Movie already exists in this watchlist",
             data := none }, db)
        else
          let movies1 := w.movies ++ [movieData movieId title poster now]
          if movies1.length > 1000 then
            ({ status := 400, success := false,
               message := "Validation error", data := none }, db)
          else if ¬ (movies1.map (fun m => m.movieId)).Nodup then
            ({ status := 500, success := false,
               message := "Server error while adding movie to watchlist",
               data := none }, db)
          else
            let w1 := { w with movies := movies1 }
            ({ status := 200, success := true,
               message := "Movie added to watchlist successfully",
               data := some w1 },
             updateFirst (fun w => w.id == wid && w.user == uid)
               (fun w => { w with movies := movies1 }) db)

/-! ### Favorites (`src/routes/users.js`) -/

/-- Response of the favorites routes (`{ success, message, favorites }`). -/
structure FavResponse where
  status : Nat
  success : Bool
  message : String
  favorites : List FavMovie
deriving DecidableEq, Repr

/-- `DELETE /users/favorites/:movieId`: filter the entry out of
`favoriteMovies` and respond success unconditionally. -/
def removeFavorite (user : User) (movieId : Nat) : FavResponse × User :=
  let user1 := { user with favoriteMovies :=
    user.favoriteMovies.filter (fun m => !(m.movieId == movieId)) }
  ({ status := 200, success := true,
     message := "Movie removed from favorites",
     favorites := user1.favoriteMovies }, user1)

/-! ### Concrete fixtures used to exercise the operations -/

/-- A pending-verification account holding a live verification code. -/
def ana : User :=
  { username := "ana", email := "ana@x.com",
    password := hashPassword "secret1", isEmailVerified := false,
    emailVerificationToken := some "123456",
    emailVerificationExpires := some 1000,
    passwordResetToken := none, passwordResetExpires := none,
    favoriteMovies := [] }

/-- A verified account holding a live password reset code. -/
def bob : User :=
  { username := "bob", email := "bob@x.com",
    password := hashPassword "oldpass", isEmailVerified := true,
    emailVerificationToken := none, emailVerificationExpires := none,
    passwordResetToken := some "654321", passwordResetExpires := some 1000,
    favoriteMovies := [] }

/-- A stored review. -/
def sampleReview : Review :=
  { id := 1, user := "uAna", movieId := 42, title := "Heat", rating := 9,
    review := some "great", spoiler := false, likes := [], reports := [] }

/-- A stored watchlist. -/
def sampleWatchlist : Watchlist :=
  { id := 1, user := "uAna", name := "My list", description := "",
    movies := [], isPublic := false }

/-- A review already reported by account `uBob`. -/
def reportedReview : Review :=
  { sampleReview with id := 2, reports := [{ user := "uBob", reason := "spam", createdAt := 3 }] }

/-- A review already liked by account `uBob`. -/
def likedReview : Review :=
  { sampleReview with id := 3, likes := ["uBob", "uCat"] }

/-! ### Generic lemmas about the store operations -/

theorem updateFirst_eq_of_find?_none {α : Type} (p : α → Bool) (f : α → α) :
    ∀ l : List α, l.find? p = none → updateFirst p f l = l := by
  intro l
  induction l with
  | nil => intro _; rfl
  | cons x xs ih =>
      intro h
      rw [List.find?_cons] at h
      cases hx : p x with
      | true => rw [hx] at h; exact absurd h (by simp)
      | false =>
          rw [hx] at h
          simp only [updateFirst, hx, Bool.false_eq_true, if_false, ih h]

theorem find?_split {α : Type} {p : α → Bool} {a : α} :
    ∀ {l : List α}, l.find? p = some a →
      ∃ l₁ l₂, l = l₁ ++ a :: l₂ ∧ (∀ x ∈ l₁, p x = false) := by
  intro l
  induction l with
  | nil => intro h; exact absurd h (by simp)
  | cons x xs ih =>
      intro h
      rw [List.find?_cons] at h
      cases hx : p x with
      | true =>
          rw [hx] at h
          refine ⟨[], xs, ?_, by simp⟩
          simpa using (Option.some.inj h).symm ▸ rfl
      | false =>
          rw [hx] at h
          obtain ⟨l₁, l₂, rfl, hl₁⟩ := ih h
          exact ⟨x :: l₁, l₂, rfl, by
            intro y hy
            rcases List.mem_cons.1 hy with rfl | hy
            · exact hx
            · exact hl₁ y hy⟩

theorem updateFirst_append_cons {α : Type} (p : α → Bool) (f : α → α)
    (l₁ : List α) (a : α) (l₂ : List α) (h₁ : ∀ x ∈ l₁, p x = false)
    (ha : p a = true) :
    updateFirst p f (l₁ ++ a :: l₂) = l₁ ++ f a :: l₂ := by
  induction l₁ with
  | nil => simp [updateFirst, ha]
  | cons x xs ih =>
      have hx : p x = false := h₁ x (List.mem_cons_self x xs)
      simp only [List.cons_append, updateFirst, hx, Bool.false_eq_true, if_false]
      exact congrArg (fun t => x :: t)
        (ih (fun y hy => h₁ y (List.mem_cons_of_mem x hy)))

theorem find?_append_cons_of_true {α : Type} (p : α → Bool)
    (l₁ : List α) (a : α) (l₂ : List α) (h₁ : ∀ x ∈ l₁, p x = false)
    (ha : p a = true) :
    (l₁ ++ a :: l₂).find? p = some a := by
  rw [List.find?_append, List.find?_eq_none.2 (by intro x hx; simp [h₁ x hx]),
    Option.none_or, List.find?_cons, ha]

theorem find?_append_cons_of_false {α : Type} (p : α → Bool)
    (l₁ : List α) (a : α) (l₂ : List α) (h₁ : ∀ x ∈ l₁, p x = false)
    (ha : p a = false) (h₂ : ∀ x ∈ l₂, p x = false) :
    (l₁ ++ a :: l₂).find? p = none := by
  rw [List.find?_eq_none]
  intro x hx
  rcases List.mem_append.1 hx with hx | hx
  · simp [h₁ x hx]
  · rcases List.mem_cons.1 hx with rfl | hx
    · simp [ha]
    · simp [h₂ x hx]

theorem find?_updateFirst_pres {α : Type} (p : α → Bool) (f : α → α)
    (hf : ∀ a, p a = true → p (f a) = true) :
    ∀ l : List α, (updateFirst p f l).find? p = (l.find? p).map f := by
  intro l
  induction l with
  | nil => rfl
  | cons x xs ih =>
      cases hx : p x with
      | true =>
          simp only [updateFirst, hx, if_true, List.find?_cons, hf x hx]
          rfl
      | false =>
          simp only [updateFirst, hx, Bool.false_eq_true, if_false,
            List.find?_cons, hx, ih]

/-- In a list whose images under `g` are pairwise distinct, the elements
around a distinguished occurrence have a different image. -/
theorem nodup_map_middle {α β : Type} (g : α → β) (l₁ : List α) (a : α)
    (l₂ : List α) (h : ((l₁ ++ a :: l₂).map g).Nodup) :
    (∀ x ∈ l₁, g x ≠ g a) ∧ (∀ x ∈ l₂, g x ≠ g a) := by
  rw [List.map_append, List.map_cons, List.nodup_append] at h
  obtain ⟨_, h2, h3⟩ := h
  constructor
  · intro x hx hgx
    exact h3 (List.mem_map_of_mem g hx) (by simp [hgx])
  · intro x hx hgx
    exact (List.nodup_cons.1 h2).1 (hgx ▸ List.mem_map_of_mem g hx)

theorem mem_removeFirst_of_ne {x a : String} (h : x ≠ a) :
    ∀ {l : List String}, x ∈ removeFirst a l ↔ x ∈ l := by
  intro l
  induction l with
  | nil => simp [removeFirst]
  | cons y ys ih =>
      cases hy : y == a with
      | true =>
          have : y = a := by simpa using hy
          subst this
          simp only [removeFirst, beq_self_eq_true, if_true, List.mem_cons]
          exact ⟨fun hx => Or.inr hx, fun hx => hx.resolve_left h⟩
      | false =>
          simp only [removeFirst, hy, Bool.false_eq_true, if_false,
            List.mem_cons, ih]

theorem not_mem_removeFirst {a : String} :
    ∀ {l : List String}, l.Nodup → a ∉ removeFirst a l := by
  intro l
  induction l with
  | nil => simp [removeFirst]
  | cons y ys ih =>
      intro hnd
      rcases List.nodup_cons.1 hnd with ⟨hy, hys⟩
      cases hya : y == a with
      | true =>
          have : y = a := by simpa using hya
          subst this
          simpa [removeFirst] using hy
      | false =>
          have : y ≠ a := by simpa using hya
          simp only [removeFirst, hya, Bool.false_eq_true, if_false,
            List.mem_cons]
          rintro (rfl | hmem)
          · exact this rfl
          · exact ih hys hmem

theorem removeFirst_append_self {a : String} :
    ∀ {l : List String}, a ∉ l → removeFirst a (l ++ [a]) = l := by
  intro l
  induction l with
  | nil => simp [removeFirst]
  | cons y ys ih =>
      intro h
      have hy : (y == a) = false := by
        simp only [beq_eq_false_iff_ne, ne_eq]
        intro hya
        exact h (hya ▸ List.mem_cons_self y ys)
      simp only [List.cons_append, removeFirst, hy, Bool.false_eq_true,
        if_false]
      exact congrArg (fun t => y :: t)
        (ih (fun hmem => h (List.mem_cons_of_mem y hmem)))

theorem removeFirst_sublist (a : String) :
    ∀ l : List String, List.Sublist (removeFirst a l) l := by
  intro l
  induction l with
  | nil => simp [removeFirst]
  | cons x xs ih =>
      cases hx : x == a with
      | true =>
          simp only [removeFirst, hx, if_true]
          exact List.Sublist.cons x (List.Sublist.refl xs)
      | false =>
          simpa [removeFirst, hx] using List.Sublist.cons₂ x ih

/-! ### Decimal representation length -/

theorem toDigitsCore_length_exact :
    ∀ (e f n : Nat) (l : List Char), 10 ^ e ≤ n → n < 10 ^ (e + 1) → n < f →
      (Nat.toDigitsCore 10 f n l).length = l.length + (e + 1) := by
  intro e
  induction e with
  | zero =>
      intro f n l hlo hhi hf
      match f, hf with
      | f + 1, _ =>
        have hdiv : n / 10 = 0 := Nat.div_eq_of_lt (by simpa using hhi)
        simp [Nat.toDigitsCore, hdiv]
  | succ e ih =>
      intro f n l hlo hhi hf
      match f, hf with
      | f + 1, hf =>
        have h10 : 10 ≤ n := le_trans (Nat.le_self_pow (Nat.succ_ne_zero e) 10
          |>.trans (le_refl _)) hlo
        have hdiv1 : 1 ≤ n / 10 :=
          (Nat.le_div_iff_mul_le (by norm_num)).2 (by omega)
        have hdiv : ¬ (n / 10 = 0) := by omega
        have h1 : 10 ^ e ≤ n / 10 :=
          (Nat.le_div_iff_mul_le (by norm_num)).2 (by
            calc 10 ^ e * 10 = 10 ^ (e + 1) := (pow_succ 10 e).symm
            _ ≤ n := hlo)
        have h2 : n / 10 < 10 ^ (e + 1) :=
          (Nat.div_lt_iff_lt_mul (by norm_num)).2 (by
            calc n < 10 ^ (e + 1 + 1) := hhi
            _ = 10 ^ (e + 1) * 10 := pow_succ 10 (e + 1))
        have h3 : n / 10 < f :=
          lt_of_lt_of_le (Nat.div_lt_self (by omega) (by norm_num))
            (Nat.lt_succ_iff.1 hf)
        simp only [Nat.toDigitsCore, hdiv, if_false]
        rw [ih f (n / 10) (Nat.digitChar (n % 10) :: l) h1 h2 h3]
        simp only [List.length_cons]
        omega

theorem length_repr_six (n : Nat) (hlo : 100000 ≤ n) (hhi : n < 1000000) :
    (Nat.repr n).length = 6 := by
  have h := toDigitsCore_length_exact 5 (n + 1) n [] (by norm_num; omega)
    (by norm_num; omega) (Nat.lt_succ_self n)
  simpa [Nat.repr, Nat.toDigits, List.asString, String.length] using h

/-! ### Claims -/

/-- C9: every code produced by `generateVerificationCode` is a 6-digit
decimal string whose numeric value lies in `100000..999999`; the same
generator is the one whose output is stored both as the email
verification token (by Register and by ResendVerificationCode, the
latter overwriting any prior code) and as the password reset token (by
ForgotPassword). -/
theorem generateVerificationCode_spec (r : Nat) :
    (generateVerificationCode r).length = 6 ∧
    (generateVerificationCode r = Nat.repr (100000 + r % 900000) ∧
      100000 ≤ 100000 + r % 900000 ∧ 100000 + r % 900000 ≤ 999999) ∧
    (∀ (db : List User) (username email password : String) (now : Nat),
      db.find? (fun u => u.email == email || u.username == username) = none →
      ((register db username email password r now).2.find?
          (fun u => u.email == email)).map User.emailVerificationToken =
        some (some (generateVerificationCode r))) ∧
    (∀ (db : List User) (email : String) (now : Nat) (deliveryOk : Bool)
        (u : User), db.find? (fun u => u.email == email) = some u →
      u.isEmailVerified = false → email ≠ "" →
      ((resendVerificationCode db email r now deliveryOk).2.find?
          (fun u => u.email == email)).map User.emailVerificationToken =
        some (some (generateVerificationCode r))) ∧
    (∀ (db : List User) (email : String) (now : Nat) (deliveryOk : Bool)
        (u : User), db.find? (fun u => u.email == email) = some u →
      email ≠ "" →
      ((forgotPassword db email r now deliveryOk).2.find?
          (fun u => u.email == email)).map User.passwordResetToken =
        some (some (generateVerificationCode r))) := by
  have hr : r % 900000 < 900000 := Nat.mod_lt r (by norm_num)
  refine ⟨?_, ⟨rfl, by omega, by omega⟩, ?_, ?_, ?_⟩
  · exact length_repr_six _ (by omega) (by omega)
  · intro db username email password now hfind
    simp only [register, hfind]
    have hnew : ∀ x ∈ db, (fun u : User => u.email == email) x = false := by
      intro x hx
      have := List.find?_eq_none.1 hfind x hx
      simp only [Bool.or_eq_true, not_or] at this
      simp [this.1]
    rw [List.find?_append, List.find?_eq_none.2 (by
      intro x hx
      simp only [hnew x hx]
      exact fun h => by simp at h), Option.none_or, List.find?_cons]
    simp
  · intro db email now deliveryOk u hfind hver hne
    have hu := List.find?_some hfind
    obtain ⟨l₁, l₂, rfl, hl₁⟩ := find?_split hfind
    simp only [resendVerificationCode, hne, hver]
    rw [if_neg (by simpa using hne), hfind]
    simp only [hver, Bool.false_eq_true, if_false]
    have hupd := updateFirst_append_cons (fun u : User => u.email == email)
      (fun u => { u with
        emailVerificationToken := some (generateVerificationCode r),
        emailVerificationExpires := some (now + 60 * 60 * 1000) })
      l₁ u l₂ hl₁ hu
    cases deliveryOk <;>
      simp only [if_true, if_false, Bool.false_eq_true, hupd] <;>
      rw [find?_append_cons_of_true _ _ _ _ hl₁ (by simpa using hu)] <;>
      rfl
  · intro db email now deliveryOk u hfind hne
    have hu := List.find?_some hfind
    obtain ⟨l₁, l₂, rfl, hl₁⟩ := find?_split hfind
    simp only [forgotPassword]
    rw [if_neg (by simpa using hne), hfind]
    have hupd := updateFirst_append_cons (fun u : User => u.email == email)
      (fun u => { u with
        passwordResetToken := some (generateVerificationCode r),
        passwordResetExpires := some (now + 60 * 60 * 1000) })
      l₁ u l₂ hl₁ hu
    cases deliveryOk <;>
      simp only [if_true, if_false, Bool.false_eq_true, hupd] <;>
      rw [find?_append_cons_of_true _ _ _ _ hl₁ (by simpa using hu)] <;>
      rfl

/-- C9 witness: the generator at a concrete draw, its output stored by
Register, by ResendVerificationCode (overwriting the prior live code of
an unverified account) and by ForgotPassword. -/
theorem generateVerificationCode_spec_witness :
    (generateVerificationCode 123456).length = 6 ∧
    ((register [] "ana" "ana@x.com" "secret1" 123456 0).2.find?
        (fun u => u.email == "ana@x.com")).map User.emailVerificationToken =
      some (some (generateVerificationCode 123456)) ∧
    ((resendVerificationCode [ana] "ana@x.com" 123456 0 true).2.find?
        (fun u => u.email == "ana@x.com")).map User.emailVerificationToken =
      some (some (generateVerificationCode 123456)) ∧
    ((forgotPassword [bob] "bob@x.com" 123456 0 true).2.find?
        (fun u => u.email == "bob@x.com")).map User.passwordResetToken =
      some (some (generateVerificationCode 123456)) := by
  have h := generateVerificationCode_spec 123456
  exact ⟨h.1, h.2.2.1 [] "ana" "ana@x.com" "secret1" 0 rfl,
    h.2.2.2.1 [ana] "ana@x.com" 0 true ana (by decide) (by decide)
      (by decide),
    h.2.2.2.2 [bob] "bob@x.com" 0 true bob (by decide) (by decide)⟩

/-- C2: for a fresh (username, email), Register creates the account
unverified (pending verification), and a Login immediately after —
with the registered password or any other — fails with the
EmailNotVerified response (403, `emailVerificationRequired`, the email
surfaced) and issues no token; Login never succeeds for this account
before verification. -/
theorem register_then_login_spec (db : List User)
    (username email password : String) (r now : Nat)
    (hfresh : db.find?
      (fun u => u.email == email || u.username == username) = none) :
    (register db username email password r now).1.success = true ∧
    (register db username email password r now).1.emailVerificationRequired
      = some true ∧
    (register db username email password r now).2.find?
        (fun u => u.email == email) =
      some { username := username, email := email,
             password := hashPassword password, isEmailVerified := false,
             emailVerificationToken := some (generateVerificationCode r),
             emailVerificationExpires := some (now + 60 * 60 * 1000),
             passwordResetToken := none, passwordResetExpires := none,
             favoriteMovies := [] } ∧
    (login (register db username email password r now).2 email password
      = { status := 403, success := false,
          message := "Please verify your email address before logging in. Check your inbox for the verification code.",
          token := none, emailVerificationRequired := some true,
          email := some email }) ∧
    (∀ pw, (login (register db username email password r now).2 email pw).success
        = false ∧
      (login (register db username email password r now).2 email pw).token
        = none) := by
  have hnew : ∀ x ∈ db, (x.email == email) = false := by
    intro x hx
    have h := List.find?_eq_none.1 hfresh x hx
    simp only [Bool.or_eq_true, not_or] at h
    simp [h.1]
  have hfind1 : (register db username email password r now).2.find?
      (fun u => u.email == email) =
      some { username := username, email := email,
             password := hashPassword password, isEmailVerified := false,
             emailVerificationToken := some (generateVerificationCode r),
             emailVerificationExpires := some (now + 60 * 60 * 1000),
             passwordResetToken := none, passwordResetExpires := none,
             favoriteMovies := [] } := by
    simp only [register, hfresh]
    rw [List.find?_append, List.find?_eq_none.2 (by
      intro x hx
      simp only [hnew x hx]
      exact fun h => by simp at h), Option.none_or, List.find?_cons]
    simp
  refine ⟨by simp [register, hfresh], by simp [register, hfresh], hfind1,
    ?_, ?_⟩
  · simp only [login, hfind1, comparePassword, beq_self_eq_true, if_true]
    rfl
  · intro pw
    simp only [login, hfind1]
    cases hcp : comparePassword pw (hashPassword password) <;>
      simp [hcp]

/-- C2 witness: a concrete fresh registration followed by a login. -/
theorem register_then_login_spec_witness :
    ([] : List User).find?
      (fun u => u.email == "ana@x.com" || u.username == "ana") = none ∧
    (login (register [] "ana" "ana@x.com" "secret1" 7 0).2 "ana@x.com"
        "secret1"
      = { status := 403, success := false,
          message := "Please verify your email address before logging in. Check your inbox for the verification code.",
          token := none, emailVerificationRequired := some true,
          email := some "ana@x.com" }) ∧
    (login (register [] "ana" "ana@x.com" "secret1" 7 0).2 "ana@x.com"
        "wrongpw").success = false :=
  ⟨rfl,
   (register_then_login_spec [] "ana" "ana@x.com" "secret1" 7 0 rfl).2.2.2.1,
   ((register_then_login_spec [] "ana" "ana@x.com" "secret1" 7 0
      rfl).2.2.2.2 "wrongpw").1⟩

/-- C3: with a non-expired matching verification code, VerifyEmail
succeeds, marks the account verified and clears token and expiry; a
second VerifyEmail with the same code (at any later instant `now2`)
fails with the invalid-or-expired response and changes nothing. -/
theorem verifyEmail_single_use (db : List User) (email code : String)
    (now now2 : Nat) (u : User)
    (hnodup : (db.map User.email).Nodup)
    (hcode : code ≠ "") (hemail : email ≠ "")
    (hfind : db.find? (verifyMatch email code now) = some u) :
    (verifyEmail db email code now).1.success = true ∧
    (verifyEmail db email code now).2.find? (fun x => x.email == email) =
      some { u with isEmailVerified := true,
                    emailVerificationToken := none,
                    emailVerificationExpires := none } ∧
    verifyEmail (verifyEmail db email code now).2 email code now2 =
      ({ status := 400, success := false,
         message := "Invalid or expired verification code" },
       (verifyEmail db email code now).2) := by
  have hguard : ¬ ((code == "" || email == "") = true) := by
    simp [hcode, hemail]
  have hu := List.find?_some hfind
  have hue : u.email = email := by
    have h := hu
    simp only [verifyMatch, Bool.and_eq_true, beq_iff_eq] at h
    exact h.1.1
  obtain ⟨l₁, l₂, rfl, hl₁⟩ := find?_split hfind
  obtain ⟨hL₁, hL₂⟩ := nodup_map_middle User.email l₁ u l₂ hnodup
  have hdb1 : (verifyEmail (l₁ ++ u :: l₂) email code now).2 =
      l₁ ++ { u with isEmailVerified := true,
                     emailVerificationToken := none,
                     emailVerificationExpires := none } :: l₂ := by
    simp only [verifyEmail, hguard, if_false, hfind]
    exact updateFirst_append_cons _ _ l₁ u l₂ hl₁ hu
  have hres1 : (verifyEmail (l₁ ++ u :: l₂) email code now).1.success
      = true := by
    simp [verifyEmail, hguard, hfind]
  have hmail₁ : ∀ x ∈ l₁, (fun x : User => x.email == email) x = false := by
    intro x hx
    simp only [beq_eq_false_iff_ne, ne_eq]
    exact hue ▸ hL₁ x hx
  refine ⟨hres1, ?_, ?_⟩
  · rw [hdb1]
    exact find?_append_cons_of_true _ l₁ _ l₂ hmail₁ (by simp [hue])
  · have hnone : (l₁ ++ { u with isEmailVerified := true,
                                 emailVerificationToken := none,
                                 emailVerificationExpires := none } ::
          l₂).find? (verifyMatch email code now2) = none := by
      apply find?_append_cons_of_false
      · intro x hx
        have hxe : (x.email == email) = false := by
          simp only [beq_eq_false_iff_ne, ne_eq]
          exact hue ▸ hL₁ x hx
        simp [verifyMatch, hxe]
      · simp [verifyMatch]
      · intro x hx
        have hxe : (x.email == email) = false := by
          simp only [beq_eq_false_iff_ne, ne_eq]
          exact hue ▸ hL₂ x hx
        simp [verifyMatch, hxe]
    rw [hdb1]
    simp [verifyEmail, hguard, hnone]

/-- C3 witness: one account with a live code; the first verification
succeeds, the second fails. -/
theorem verifyEmail_single_use_witness :
    (([ana] : List User).map User.email).Nodup ∧
    (verifyEmail [ana] "ana@x.com" "123456" 500).1.success = true ∧
    verifyEmail (verifyEmail [ana] "ana@x.com" "123456" 500).2
        "ana@x.com" "123456" 600 =
      ({ status := 400, success := false,
         message := "Invalid or expired verification code" },
       (verifyEmail [ana] "ana@x.com" "123456" 500).2) :=
  ⟨by decide,
   (verifyEmail_single_use [ana] "ana@x.com" "123456" 500 600 ana (by decide)
     (by decide) (by decide) (by decide)).1,
   (verifyEmail_single_use [ana] "ana@x.com" "123456" 500 600 ana (by decide)
     (by decide) (by decide) (by decide)).2.2⟩

/-- C4: ResetPassword fails with the invalid-or-expired response and
leaves the store (hence every stored password hash) unchanged whenever
no account matches (email, code) with a non-expired token; on a match
it replaces the password hash and clears reset token and expiry. -/
theorem resetPassword_spec (email code newPassword : String) (now : Nat)
    (hemail : email ≠ "") (hcode : code ≠ "") (hnp : newPassword ≠ "") :
    (∀ db : List User, db.find? (resetMatch email code now) = none →
      resetPassword db email code newPassword now =
        ({ status := 400, success := false,
           message := "Invalid or expired reset code" }, db)) ∧
    (∀ (db : List User) (u : User), (db.map User.email).Nodup →
      db.find? (resetMatch email code now) = some u →
      (resetPassword db email code newPassword now).1 =
        { status := 200, success := true,
          message := "Password reset successfully" } ∧
      (resetPassword db email code newPassword now).2.find?
          (fun x => x.email == email) =
        some { u with password := hashPassword newPassword,
                      passwordResetToken := none,
                      passwordResetExpires := none }) := by
  have hguard : ¬ ((email == "" || code == "" || newPassword == "") = true) := by
    simp [hemail, hcode, hnp]
  constructor
  · intro db hfind
    simp [resetPassword, hguard, hfind]
  · intro db u hnodup hfind
    have hu := List.find?_some hfind
    have hue : u.email = email := by
      have h := hu
      simp only [resetMatch, Bool.and_eq_true, beq_iff_eq] at h
      exact h.1.1
    obtain ⟨l₁, l₂, rfl, hl₁⟩ := find?_split hfind
    obtain ⟨hL₁, _⟩ := nodup_map_middle User.email l₁ u l₂ hnodup
    have hdb1 : (resetPassword (l₁ ++ u :: l₂) email code newPassword now).2 =
        l₁ ++ { u with password := hashPassword newPassword,
                       passwordResetToken := none,
                       passwordResetExpires := none } :: l₂ := by
      simp only [resetPassword, hguard, Bool.false_eq_true, if_false, hfind]
      exact updateFirst_append_cons _ _ l₁ u l₂ hl₁ hu
    refine ⟨by simp [resetPassword, hguard, hfind], ?_⟩
    rw [hdb1]
    refine find?_append_cons_of_true _ l₁ _ l₂ ?_ (by simp [hue])
    intro x hx
    simp only [beq_eq_false_iff_ne, ne_eq]
    exact hue ▸ hL₁ x hx

/-- C4 witness: the failure branch on an empty store and the success
branch on a store holding one account with a live reset code. -/
theorem resetPassword_spec_witness :
    (resetPassword [] "bob@x.com" "654321" "newpass" 500 =
      ({ status := 400, success := false,
         message := "Invalid or expired reset code" }, []) ) ∧
    ((resetPassword [bob] "bob@x.com" "654321" "newpass" 500).1 =
      { status := 200, success := true,
        message := "Password reset successfully" } ∧
     (resetPassword [bob] "bob@x.com" "654321" "newpass" 500).2.find?
        (fun x => x.email == "bob@x.com") =
      some { bob with password := hashPassword "newpass",
                      passwordResetToken := none,
                      passwordResetExpires := none }) :=
  ⟨(resetPassword_spec "bob@x.com" "654321" "newpass" 500 (by decide)
      (by decide) (by decide)).1 [] rfl,
   (resetPassword_spec "bob@x.com" "654321" "newpass" 500 (by decide)
      (by decide) (by decide)).2 [bob] bob (by decide) (by decide)⟩

/-- C1 counterexample: ForgotPassword does NOT always respond
success-shaped: for an existing account whose reset email fails to
send, the route responds 500 with `success = false` (and, having saved
before sending, this also distinguishes the account's existence). -/
theorem forgotPassword_not_always_success :
    (forgotPassword [bob] "bob@x.com" 123 0 false).1.success = false ∧
    (forgotPassword [bob] "bob@x.com" 123 0 false).1.status = 500 := by
  decide

/-- C1 (amended): for a non-existent email ForgotPassword responds
success-shaped (success=true, generic message, store untouched)
regardless of the delivery outcome; for an existing account it stores a
reset code with a 1-hour expiry whatever the delivery outcome, and
responds success-shaped (same 200/success=true shape) when delivery
succeeds, but 500/failure when delivery fails. -/
theorem forgotPassword_spec (email : String) (r now : Nat)
    (hemail : email ≠ "") :
    (∀ (db : List User) (deliveryOk : Bool),
      db.find? (fun u => u.email == email) = none →
      forgotPassword db email r now deliveryOk =
        ({ status := 200, success := true,
           message := "If an account with that email exists, a password reset code has been sent." },
         db)) ∧
    (∀ (db : List User) (u : User),
      db.find? (fun u => u.email == email) = some u →
      ((forgotPassword db email r now true).1.status = 200 ∧
       (forgotPassword db email r now true).1.success = true) ∧
      (∀ deliveryOk,
        ((forgotPassword db email r now deliveryOk).2.find?
            (fun x => x.email == email)).map
          (fun x => (x.passwordResetToken, x.passwordResetExpires)) =
        some (some (generateVerificationCode r),
              some (now + 60 * 60 * 1000))) ∧
      (forgotPassword db email r now false).1.status = 500 ∧
      (forgotPassword db email r now false).1.success = false) := by
  have hne : ¬ ((email == "") = true) := by simp [hemail]
  constructor
  · intro db deliveryOk hfind
    cases deliveryOk <;> simp [forgotPassword, hne, hfind]
  · intro db u hfind
    have hu := List.find?_some hfind
    obtain ⟨l₁, l₂, rfl, hl₁⟩ := find?_split hfind
    have hupd := updateFirst_append_cons (fun u : User => u.email == email)
      (fun u => { u with
        passwordResetToken := some (generateVerificationCode r),
        passwordResetExpires := some (now + 60 * 60 * 1000) })
      l₁ u l₂ hl₁ hu
    refine ⟨by constructor <;> simp [forgotPassword, hne, hfind], ?_, ?_⟩
    · intro deliveryOk
      cases deliveryOk <;>
        simp only [forgotPassword, hne, Bool.false_eq_true, if_false,
          hfind, if_true, hupd] <;>
        rw [find?_append_cons_of_true _ _ _ _ hl₁ (by simpa using hu)] <;>
        rfl
    · constructor <;> simp [forgotPassword, hne, hfind]

/-- C1 witness: a non-existent email on an empty store, and an existing
account with both delivery outcomes. -/
theorem forgotPassword_spec_witness :
    (forgotPassword [] "bob@x.com" 7 0 false =
      ({ status := 200, success := true,
         message := "If an account with that email exists, a password reset code has been sent." },
       []) ) ∧
    ((forgotPassword [bob] "bob@x.com" 7 0 true).1.status = 200 ∧
     (forgotPassword [bob] "bob@x.com" 7 0 true).1.success = true) ∧
    (((forgotPassword [bob] "bob@x.com" 7 0 false).2.find?
        (fun x => x.email == "bob@x.com")).map
      (fun x => (x.passwordResetToken, x.passwordResetExpires)) =
      some (some (generateVerificationCode 7), some (60 * 60 * 1000))) :=
  ⟨(forgotPassword_spec "bob@x.com" 7 0 (by decide)).1 [] false rfl,
   ((forgotPassword_spec "bob@x.com" 7 0 (by decide)).2 [bob] bob
      (by decide)).1,
   by
     have h := (((forgotPassword_spec "bob@x.com" 7 0 (by decide)).2 [bob]
       bob (by decide)).2.1) false
     simpa using h⟩

/-- C5: submitting a review twice for the same (account, movie) leaves
exactly one stored review for that pair — provided the store satisfies
the unique-index invariant (at most one such review) beforehand — and
its rating, body and spoiler flag are those of the second submission. -/
theorem postReview_upsert (db : List Review) (uid : String) (movieId : Nat)
    (title1 title2 : String) (rating1 rating2 : Nat)
    (body1 body2 : Option String) (spoiler1 spoiler2 : Option Bool)
    (id1 id2 : Nat)
    (hmid : movieId ≠ 0) (ht1 : title1 ≠ "") (ht2 : title2 ≠ "")
    (hr1 : rating1 ≠ 0) (hr2 : rating2 ≠ 0)
    (hinv : (db.filter (reviewPairMatch uid movieId)).length ≤ 1) :
    (postReview db uid movieId title1 rating1 body1 spoiler1 id1).1.success
      = true ∧
    (postReview (postReview db uid movieId title1 rating1 body1 spoiler1
        id1).2 uid movieId title2 rating2 body2 spoiler2 id2).1.success
      = true ∧
    ∃ rv : Review,
      (postReview (postReview db uid movieId title1 rating1 body1 spoiler1
          id1).2 uid movieId title2 rating2 body2 spoiler2 id2).2.filter
        (reviewPairMatch uid movieId) = [rv] ∧
      rv.user = uid ∧ rv.movieId = movieId ∧ rv.rating = rating2 ∧
      rv.review = body2 ∧ rv.spoiler = spoiler2.getD false := by
  have hg1 : ¬ ((movieId == 0 || title1 == "" || rating1 == 0) = true) := by
    simp [hmid, ht1, hr1]
  have hg2 : ¬ ((movieId == 0 || title2 == "" || rating2 == 0) = true) := by
    simp [hmid, ht2, hr2]
  cases hfind : db.find? (reviewPairMatch uid movieId) with
  | none =>
      have hallf : ∀ x ∈ db, reviewPairMatch uid movieId x = false := by
        intro x hx
        have := List.find?_eq_none.1 hfind x hx
        simpa using this
      have hdb1 : (postReview db uid movieId title1 rating1 body1 spoiler1
          id1).2 = db ++
          [{ id := id1, user := uid, movieId := movieId, title := title1,
             rating := rating1, review := body1,
             spoiler := spoiler1.getD false, likes := [], reports := [] }] := by
        simp only [postReview, hg1, Bool.false_eq_true, if_false, hfind]
      have hres1 : (postReview db uid movieId title1 rating1 body1 spoiler1
          id1).1.success = true := by
        simp only [postReview, hg1, Bool.false_eq_true, if_false, hfind]
      have hpairn : reviewPairMatch uid movieId
          { id := id1, user := uid, movieId := movieId, title := title1,
            rating := rating1, review := body1,
            spoiler := spoiler1.getD false, likes := [], reports := [] }
          = true := by
        simp [reviewPairMatch]
      have hfind1 : (db ++
          [({ id := id1, user := uid, movieId := movieId, title := title1,
              rating := rating1, review := body1,
              spoiler := spoiler1.getD false, likes := [],
              reports := [] } : Review)]).find? (reviewPairMatch uid movieId) =
          some { id := id1, user := uid, movieId := movieId, title := title1,
                 rating := rating1, review := body1,
                 spoiler := spoiler1.getD false, likes := [],
                 reports := [] } :=
        find?_append_cons_of_true _ db _ [] hallf hpairn
      have hres2 : (postReview (db ++
          [{ id := id1, user := uid, movieId := movieId, title := title1,
             rating := rating1, review := body1,
             spoiler := spoiler1.getD false, likes := [], reports := [] }])
          uid movieId title2 rating2 body2 spoiler2 id2).1.success = true := by
        simp only [postReview, hg2, Bool.false_eq_true, if_false, hfind1]
      have hdb2 : (postReview (db ++
          [{ id := id1, user := uid, movieId := movieId, title := title1,
             rating := rating1, review := body1,
             spoiler := spoiler1.getD false, likes := [], reports := [] }])
          uid movieId title2 rating2 body2 spoiler2 id2).2 = db ++
          [{ id := id1, user := uid, movieId := movieId, title := title1,
             rating := rating2, review := body2,
             spoiler := spoiler2.getD false, likes := [], reports := [] }] := by
        simp only [postReview, hg2, Bool.false_eq_true, if_false, hfind1]
        exact updateFirst_append_cons _ _ db _ [] hallf hpairn
      refine ⟨hres1, ?_, ?_⟩
      · rw [hdb1]
        exact hres2
      · refine ⟨{ id := id1, user := uid, movieId := movieId,
                  title := title1, rating := rating2, review := body2,
                  spoiler := spoiler2.getD false, likes := [],
                  reports := [] },
          ?_, rfl, rfl, rfl, rfl, rfl⟩
        rw [hdb1, hdb2, List.filter_append,
          List.filter_eq_nil_iff.2 (by intro x hx; simp [hallf x hx])]
        simp [reviewPairMatch]
  | some rv0 =>
      have hpair0 := List.find?_some hfind
      obtain ⟨l₁, l₂, rfl, hl₁⟩ := find?_split hfind
      have hl₂ : ∀ x ∈ l₂, reviewPairMatch uid movieId x = false := by
        have hfl : ((l₁ ++ rv0 :: l₂).filter
            (reviewPairMatch uid movieId)).length =
            1 + (l₂.filter (reviewPairMatch uid movieId)).length := by
          rw [List.filter_append,
            List.filter_eq_nil_iff.2 (by intro x hx; simp [hl₁ x hx])]
          simp only [List.filter_cons, hpair0, if_true, List.nil_append,
            List.length_cons]
          omega
        have hlen : (l₂.filter (reviewPairMatch uid movieId)).length = 0 := by
          omega
        intro x hx
        have := List.filter_eq_nil_iff.1 (List.length_eq_zero.1 hlen) x hx
        simpa using this
      have hdb1 : (postReview (l₁ ++ rv0 :: l₂) uid movieId title1 rating1
          body1 spoiler1 id1).2 = l₁ ++
          { rv0 with rating := rating1, review := body1,
                     spoiler := spoiler1.getD false } :: l₂ := by
        simp only [postReview, hg1, Bool.false_eq_true, if_false, hfind]
        exact updateFirst_append_cons _ _ l₁ rv0 l₂ hl₁ hpair0
      have hpair1 : reviewPairMatch uid movieId
          { rv0 with rating := rating1, review := body1,
                     spoiler := spoiler1.getD false } = true := by
        simpa [reviewPairMatch] using hpair0
      have hfind1 : (l₁ ++
          { rv0 with rating := rating1, review := body1,
                     spoiler := spoiler1.getD false } :: l₂).find?
          (reviewPairMatch uid movieId) =
          some { rv0 with rating := rating1, review := body1,
                          spoiler := spoiler1.getD false } :=
        find?_append_cons_of_true _ l₁ _ l₂ hl₁ hpair1
      have hres2 : (postReview (l₁ ++
          { rv0 with rating := rating1, review := body1,
                     spoiler := spoiler1.getD false } :: l₂)
          uid movieId title2 rating2 body2 spoiler2 id2).1.success = true := by
        simp only [postReview, hg2, Bool.false_eq_true, if_false, hfind1]
      have hdb2 : (postReview (l₁ ++
          { rv0 with rating := rating1, review := body1,
                     spoiler := spoiler1.getD false } :: l₂)
          uid movieId title2 rating2 body2 spoiler2 id2).2 = l₁ ++
          { rv0 with rating := rating2, review := body2,
                     spoiler := spoiler2.getD false } :: l₂ := by
        simp only [postReview, hg2, Bool.false_eq_true, if_false, hfind1]
        exact updateFirst_append_cons _ _ l₁ _ l₂ hl₁ hpair1
      have hpair2 : reviewPairMatch uid movieId
          { rv0 with rating := rating2, review := body2,
                     spoiler := spoiler2.getD false } = true := by
        simpa [reviewPairMatch] using hpair0
      refine ⟨?_, ?_, ?_⟩
      · simp only [postReview, hg1, Bool.false_eq_true, if_false, hfind]
      · rw [hdb1]
        exact hres2
      · refine ⟨{ rv0 with rating := rating2, review := body2,
                           spoiler := spoiler2.getD false },
          ?_, ?_, ?_, rfl, rfl, rfl⟩
        · rw [hdb1, hdb2, List.filter_append,
            List.filter_eq_nil_iff.2 (by intro x hx; simp [hl₁ x hx]),
            List.filter_cons,
            List.filter_eq_nil_iff.2 (by intro x hx; simp [hl₂ x hx])]
          simp only [hpair2, if_true]
          rfl
        · have h := hpair0
          simp only [reviewPairMatch, Bool.and_eq_true, beq_iff_eq] at h
          exact h.1
        · have h := hpair0
          simp only [reviewPairMatch, Bool.and_eq_true, beq_iff_eq] at h
          exact h.2

/-- C5 witness: two submissions over an initially empty review store. -/
theorem postReview_upsert_witness :
    (postReview [] "uAna" 42 "Heat" 9 (some "great") (some false) 1).1.success
      = true ∧
    ∃ rv : Review,
      (postReview (postReview [] "uAna" 42 "Heat" 9 (some "great")
          (some false) 1).2 "uAna" 42 "Heat" 7 (some "ok") none 2).2.filter
        (reviewPairMatch "uAna" 42) = [rv] ∧
      rv.user = "uAna" ∧ rv.movieId = 42 ∧ rv.rating = 7 ∧
      rv.review = some "ok" ∧ rv.spoiler = false := by
  have h := postReview_upsert [] "uAna" 42 "Heat" "Heat" 9 7 (some "great")
    (some "ok") (some false) none 1 2 (by decide) (by decide) (by decide)
    (by decide) (by decide) (by decide)
  exact ⟨h.1, h.2.2⟩

/-- C6: on a watchlist owned by the requester that does not yet contain
`movieId` (and has room and distinct entries), the first add succeeds
and the second add of the same `movieId` fails with the duplicate-entry
response leaving the store unchanged; the refetched watchlist contains
exactly one entry with that `movieId` and its `movieId`s stay pairwise
distinct. -/
theorem addMovieToWatchlist_spec (db : List Watchlist) (wid : Nat)
    (uid : String) (movieId : Nat) (title : String) (poster : Option String)
    (now now2 : Nat) (w : Watchlist)
    (hmid : movieId ≠ 0) (htitle : title ≠ "")
    (hfind : db.find? (fun w => w.id == wid && w.user == uid) = some w)
    (hnotin : ∀ m ∈ w.movies, m.movieId ≠ movieId)
    (hlen : w.movies.length < 1000)
    (hnodup : (w.movies.map WMovie.movieId).Nodup) :
    (addMovieToWatchlist db wid uid movieId title poster now).1.success
      = true ∧
    (addMovieToWatchlist (addMovieToWatchlist db wid uid movieId title
        poster now).2 wid uid movieId title poster now2).1 =
      { status := 400, success := false,
        message := "Movie already exists in this watchlist",
        data := none } ∧
    (addMovieToWatchlist (addMovieToWatchlist db wid uid movieId title
        poster now).2 wid uid movieId title poster now2).2 =
      (addMovieToWatchlist db wid uid movieId title poster now).2 ∧
    (addMovieToWatchlist db wid uid movieId title poster now).2.find?
        (fun w => w.id == wid && w.user == uid) =
      some { w with movies := w.movies ++
        [movieData movieId title poster now] } ∧
    ((w.movies ++
        [movieData movieId title poster now]).filter
      (fun m => m.movieId == movieId)).length = 1 ∧
    ((w.movies ++
        [movieData movieId title poster now]).map
      WMovie.movieId).Nodup := by
  have hg : ¬ ((movieId == 0 || title == "") = true) := by
    simp [hmid, htitle]
  have hp := List.find?_some hfind
  obtain ⟨l₁, l₂, rfl, hl₁⟩ := find?_split hfind
  have hany : w.movies.any (fun m => m.movieId == movieId) = false := by
    rw [List.any_eq_false]
    intro m hm
    simp [hnotin m hm]
  have hnodup1 : ((w.movies ++
      [movieData movieId title poster now]).map
      WMovie.movieId).Nodup := by
    rw [List.map_append, List.nodup_append]
    refine ⟨hnodup, by simp, ?_⟩
    intro x hx
    obtain ⟨m, hm, rfl⟩ := List.mem_map.1 hx
    simp [movieData, hnotin m hm]
  have hcount : ((w.movies ++
      [movieData movieId title poster now]).filter
      (fun m => m.movieId == movieId)).length = 1 := by
    rw [List.filter_append,
      List.filter_eq_nil_iff.2 (by intro m hm; simp [hnotin m hm])]
    simp [movieData]
  have hdb1 : (addMovieToWatchlist (l₁ ++ w :: l₂) wid uid movieId title
      poster now).2 = l₁ ++ { w with movies := w.movies ++
        [movieData movieId title poster now] } :: l₂ := by
    simp only [addMovieToWatchlist, hg, Bool.false_eq_true, if_false,
      hfind, hany, List.length_append, List.length_cons, List.length_nil]
    rw [if_neg (by omega), if_neg (not_not_intro hnodup1)]
    exact updateFirst_append_cons _ _ l₁ w l₂ hl₁ hp
  have hres1 : (addMovieToWatchlist (l₁ ++ w :: l₂) wid uid movieId title
      poster now).1.success = true := by
    simp only [addMovieToWatchlist, hg, Bool.false_eq_true, if_false,
      hfind, hany, List.length_append, List.length_cons, List.length_nil]
    rw [if_neg (by omega), if_neg (not_not_intro hnodup1)]
  have hp1 : (fun x : Watchlist => x.id == wid && x.user == uid)
      { w with movies := w.movies ++
        [movieData movieId title poster now] } = true := by
    simpa using hp
  have hfind1 : (addMovieToWatchlist (l₁ ++ w :: l₂) wid uid movieId title
      poster now).2.find? (fun w => w.id == wid && w.user == uid) =
      some { w with movies := w.movies ++
        [movieData movieId title poster now] } := by
    rw [hdb1]
    exact find?_append_cons_of_true _ l₁ _ l₂ hl₁ hp1
  have hany1 : ({ w with movies := w.movies ++
      [movieData movieId title poster now] } :
      Watchlist).movies.any (fun m => m.movieId == movieId) = true := by
    simp [List.any_append, movieData]
  have hfind2 : (l₁ ++ { w with movies := w.movies ++
      [movieData movieId title poster now] } :: l₂).find?
      (fun w => w.id == wid && w.user == uid) =
      some { w with movies := w.movies ++
        [movieData movieId title poster now] } :=
    find?_append_cons_of_true _ l₁ _ l₂ hl₁ hp1
  have hres2 : addMovieToWatchlist (l₁ ++ { w with movies := w.movies ++
      [movieData movieId title poster now] } :: l₂) wid uid movieId title
      poster now2 =
      ({ status := 400, success := false,
         message := "Movie already exists in this watchlist",
         data := none },
       l₁ ++ { w with movies := w.movies ++
         [movieData movieId title poster now] } :: l₂) := by
    simp only [addMovieToWatchlist, hg, Bool.false_eq_true, if_false,
      hfind2, hany1, if_true]
  refine ⟨hres1, ?_, ?_, hfind1, hcount, hnodup1⟩
  · rw [hdb1, hres2]
  · rw [hdb1, hres2]

/-- C6 witness: an empty owned watchlist; first add succeeds, second
fails as a duplicate, and the list ends with exactly one entry. -/
theorem addMovieToWatchlist_spec_witness :
    (addMovieToWatchlist [sampleWatchlist] 1 "uAna" 42 "Heat" none
      5).1.success = true ∧
    (addMovieToWatchlist (addMovieToWatchlist [sampleWatchlist] 1 "uAna" 42
        "Heat" none 5).2 1 "uAna" 42 "Heat" none 6).1 =
      { status := 400, success := false,
        message := "Movie already exists in this watchlist",
        data := none } ∧
    ((sampleWatchlist.movies ++
        [movieData 42 "Heat" none 5]).filter
      (fun m => m.movieId == 42)).length = 1 := by
  have h := addMovieToWatchlist_spec [sampleWatchlist] 1 "uAna" 42 "Heat"
    none 5 6 sampleWatchlist (by decide) (by decide) (by decide)
    (by decide) (by decide) (by decide)
  exact ⟨h.1, h.2.1, h.2.2.2.2.1⟩

/-- C7: reporting a review fails with the already-reported response and
changes nothing when the requesting account already filed a report;
otherwise it appends exactly one report carrying the account, trimmed
reason and timestamp, and the at-most-one-report-per-account invariant
is preserved. -/
theorem reportReview_spec (reason : String) (now : Nat)
    (hreason : jsTrim reason ≠ "") :
    (∀ (db : List Review) (rid : Nat) (uid : String) (rv : Review),
      db.find? (fun rv => rv.id == rid) = some rv →
      rv.reports.any (fun rp => rp.user == uid) = true →
      reportReview db rid uid reason now =
        ({ status := 400, success := false,
           message := "You have already reported this review" }, db)) ∧
    (∀ (db : List Review) (rid : Nat) (uid : String) (rv : Review),
      db.find? (fun rv => rv.id == rid) = some rv →
      rv.reports.any (fun rp => rp.user == uid) = false →
      (reportReview db rid uid reason now).1.success = true ∧
      ((reportReview db rid uid reason now).2.find?
          (fun rv => rv.id == rid)).map Review.reports =
        some (rv.reports ++
          [{ user := uid, reason := jsTrim reason, createdAt := now }]) ∧
      ((rv.reports.map Report.user).Nodup →
        ((rv.reports ++
          [({ user := uid, reason := jsTrim reason,
              createdAt := now } : Report)]).map Report.user).Nodup)) := by
  have hg : ¬ ((jsTrim reason == "") = true) := by simp [hreason]
  constructor
  · intro db rid uid rv hfind hmem
    simp only [reportReview, hg, Bool.false_eq_true, if_false, hfind, hmem,
      if_true]
  · intro db rid uid rv hfind hmem
    have hnotin : ∀ rp ∈ rv.reports, rp.user ≠ uid := by
      intro rp hrp
      have := List.any_eq_false.1 hmem rp hrp
      simpa using this
    have hpres : ∀ a : Review, (a.id == rid) = true →
        ((({ a with reports := a.reports ++
          [{ user := uid, reason := jsTrim reason, createdAt := now }] } :
          Review).id == rid) = true) := by
      intro a ha
      simpa using ha
    refine ⟨?_, ?_, ?_⟩
    · simp only [reportReview, hg, Bool.false_eq_true, if_false, hfind,
        hmem, if_true]
    · simp only [reportReview, hg, Bool.false_eq_true, if_false, hfind,
        hmem, if_true]
      rw [find?_updateFirst_pres _ _ hpres, hfind]
      rfl
    · intro hnd
      rw [List.map_append, List.nodup_append]
      refine ⟨hnd, by simp, ?_⟩
      intro x hx
      obtain ⟨rp, hrp, rfl⟩ := List.mem_map.1 hx
      simp [hnotin rp hrp]

/-- C7 witness: a second report by the same account is rejected on a
review it already reported; a first report is appended on a fresh one. -/
theorem reportReview_spec_witness :
    reportReview [reportedReview] 2 "uBob" "abusive" 9 =
      ({ status := 400, success := false,
         message := "You have already reported this review" },
       [reportedReview]) ∧
    ((reportReview [sampleReview] 1 "uBob" "abusive" 9).1.success = true ∧
     ((reportReview [sampleReview] 1 "uBob" "abusive" 9).2.find?
        (fun rv => rv.id == 1)).map Review.reports =
      some (sampleReview.reports ++
        [{ user := "uBob", reason := jsTrim "abusive", createdAt := 9 }])) := by
  have h := reportReview_spec "abusive" 9 (by decide)
  exact ⟨h.1 [reportedReview] 2 "uBob" reportedReview (by decide) (by decide),
    (h.2 [sampleReview] 1 "uBob" sampleReview (by decide) (by decide)).1,
    (h.2 [sampleReview] 1 "uBob" sampleReview (by decide) (by decide)).2.1⟩

/-- C8: the like operation toggles the requesting account in the
review's likers list: if present it is removed (`liked = false`) and a
second like re-adds it, restoring the original likers as a set; if
absent it is appended (`liked = true`) and a second like removes it,
restoring the original likers list exactly.  Distinctness of the likers
is preserved. -/
theorem likeReview_spec (uid : String) :
    (∀ (db : List Review) (rid : Nat) (rv : Review),
      db.find? (fun rv => rv.id == rid) = some rv →
      rv.likes.Nodup → uid ∈ rv.likes →
      (likeReview db rid uid).1.liked = some false ∧
      likesOf (likeReview db rid uid).2 rid = removeFirst uid rv.likes ∧
      uid ∉ likesOf (likeReview db rid uid).2 rid ∧
      (likesOf (likeReview db rid uid).2 rid).Nodup ∧
      (∀ x, x ∈ likesOf
          (likeReview (likeReview db rid uid).2 rid uid).2 rid ↔
        x ∈ rv.likes)) ∧
    (∀ (db : List Review) (rid : Nat) (rv : Review),
      db.find? (fun rv => rv.id == rid) = some rv →
      rv.likes.Nodup → uid ∉ rv.likes →
      (likeReview db rid uid).1.liked = some true ∧
      likesOf (likeReview db rid uid).2 rid = rv.likes ++ [uid] ∧
      uid ∈ likesOf (likeReview db rid uid).2 rid ∧
      (likesOf (likeReview db rid uid).2 rid).Nodup ∧
      likesOf (likeReview (likeReview db rid uid).2 rid uid).2 rid =
        rv.likes) := by
  constructor
  · intro db rid rv hfind hnd hmem
    have hc : rv.likes.contains uid = true := by simpa using hmem
    have hpres1 : ∀ a : Review, (a.id == rid) = true →
        ((({ a with likes := removeFirst uid rv.likes } : Review).id == rid)
          = true) := by
      intro a ha
      simpa using ha
    have hdb1 : (likeReview db rid uid).2 =
        updateFirst (fun rv => rv.id == rid)
          (fun x => { x with likes := removeFirst uid rv.likes }) db := by
      simp only [likeReview, hfind, hc, if_true]
    have hres1 : (likeReview db rid uid).1.liked = some false := by
      simp only [likeReview, hfind, hc, if_true, Bool.not_true]
    have hfind1 : (likeReview db rid uid).2.find?
        (fun rv => rv.id == rid) =
        some { rv with likes := removeFirst uid rv.likes } := by
      rw [hdb1, find?_updateFirst_pres _ _ hpres1, hfind]
      rfl
    have hlikes1 : likesOf (likeReview db rid uid).2 rid =
        removeFirst uid rv.likes := by
      rw [likesOf, hfind1]
      rfl
    have hnotmem1 : uid ∉ removeFirst uid rv.likes := not_mem_removeFirst hnd
    have hc2 : (removeFirst uid rv.likes).contains uid = false := by
      simpa using hnotmem1
    have hpres2 : ∀ a : Review, (a.id == rid) = true →
        ((({ a with likes := removeFirst uid rv.likes ++ [uid] } :
          Review).id == rid) = true) := by
      intro a ha
      simpa using ha
    have hstep : ∀ db' : List Review,
        db'.find? (fun rv => rv.id == rid) =
          some { rv with likes := removeFirst uid rv.likes } →
        likesOf (likeReview db' rid uid).2 rid =
          removeFirst uid rv.likes ++ [uid] := by
      intro db' hf'
      simp only [likeReview, hf', hc2, Bool.false_eq_true, if_false]
      rw [likesOf, find?_updateFirst_pres _ _ hpres2, hf']
      rfl
    have hlikes2 : likesOf (likeReview (likeReview db rid uid).2 rid
        uid).2 rid = removeFirst uid rv.likes ++ [uid] :=
      hstep _ hfind1
    refine ⟨hres1, hlikes1, by rw [hlikes1]; exact hnotmem1, ?_, ?_⟩
    · rw [hlikes1]
      exact hnd.sublist (removeFirst_sublist uid rv.likes)
    · intro x
      rw [hlikes2, List.mem_append]
      constructor
      · rintro (hx | hx)
        · exact (removeFirst_sublist uid rv.likes).subset hx
        · rw [List.mem_singleton] at hx
          subst hx
          exact hmem
      · intro hx
        by_cases hxu : x = uid
        · exact Or.inr (by simp [hxu])
        · exact Or.inl ((mem_removeFirst_of_ne hxu).2 hx)
  · intro db rid rv hfind hnd hmem
    have hc : rv.likes.contains uid = false := by simpa using hmem
    have hpres1 : ∀ a : Review, (a.id == rid) = true →
        ((({ a with likes := rv.likes ++ [uid] } : Review).id == rid)
          = true) := by
      intro a ha
      simpa using ha
    have hres1 : (likeReview db rid uid).1.liked = some true := by
      simp only [likeReview, hfind, hc, Bool.false_eq_true, if_false,
        Bool.not_false]
    have hfind1 : (likeReview db rid uid).2.find?
        (fun rv => rv.id == rid) =
        some { rv with likes := rv.likes ++ [uid] } := by
      simp only [likeReview, hfind, hc, Bool.false_eq_true, if_false]
      rw [find?_updateFirst_pres _ _ hpres1, hfind]
      rfl
    have hlikes1 : likesOf (likeReview db rid uid).2 rid =
        rv.likes ++ [uid] := by
      rw [likesOf, hfind1]
      rfl
    have hmemapp : uid ∈ rv.likes ++ [uid] := by simp
    have hc2 : (rv.likes ++ [uid]).contains uid = true := by
      simp
    have hpres2 : ∀ a : Review, (a.id == rid) = true →
        ((({ a with likes := removeFirst uid (rv.likes ++ [uid]) } :
          Review).id == rid) = true) := by
      intro a ha
      simpa using ha
    have hstep : ∀ db' : List Review,
        db'.find? (fun rv => rv.id == rid) =
          some { rv with likes := rv.likes ++ [uid] } →
        likesOf (likeReview db' rid uid).2 rid =
          removeFirst uid (rv.likes ++ [uid]) := by
      intro db' hf'
      simp only [likeReview, hf', hc2, if_true]
      rw [likesOf, find?_updateFirst_pres _ _ hpres2, hf']
      rfl
    have hlikes2 : likesOf (likeReview (likeReview db rid uid).2 rid
        uid).2 rid = removeFirst uid (rv.likes ++ [uid]) :=
      hstep _ hfind1
    refine ⟨hres1, hlikes1, by rw [hlikes1]; exact hmemapp, ?_, ?_⟩
    · rw [hlikes1, List.nodup_append]
      exact ⟨hnd, by simp, by simpa using hmem⟩
    · rw [hlikes2, removeFirst_append_self hmem]

/-- C8 witness: a like by an account already in the likers removes it,
a like by a fresh account appends it, and a double like restores the
likers. -/
theorem likeReview_spec_witness :
    ((likeReview [likedReview] 3 "uBob").1.liked = some false ∧
     likesOf (likeReview [likedReview] 3 "uBob").2 3 =
       removeFirst "uBob" likedReview.likes) ∧
    ((likeReview [likedReview] 3 "uDan").1.liked = some true ∧
     likesOf (likeReview (likeReview [likedReview] 3 "uDan").2 3
       "uDan").2 3 = likedReview.likes) := by
  have hA := (likeReview_spec "uBob").1 [likedReview] 3 likedReview
    (by decide) (by decide) (by decide)
  have hB := (likeReview_spec "uDan").2 [likedReview] 3 likedReview
    (by decide) (by decide) (by decide)
  exact ⟨⟨hA.1, hA.2.1⟩, hB.1, hB.2.2.2.2⟩

/-- C10: removing a movie from the favorites always responds success,
the result holds no entry with that `movieId`, and the operation is
idempotent. -/
theorem removeFavorite_spec (user : User) (movieId : Nat) :
    (removeFavorite user movieId).1.success = true ∧
    (removeFavorite user movieId).1.status = 200 ∧
    (∀ m ∈ (removeFavorite user movieId).2.favoriteMovies,
      ¬ m.movieId = movieId) ∧
    removeFavorite (removeFavorite user movieId).2 movieId =
      removeFavorite user movieId := by
  refine ⟨rfl, rfl, ?_, ?_⟩
  · intro m hm
    have h := (List.mem_filter.1 hm).2
    simpa using h
  · simp only [removeFavorite, List.filter_filter]
    simp

/-- C10 witness: the idempotent removal applied to a concrete account. -/
theorem removeFavorite_spec_witness :
    (removeFavorite ana 42).1.success = true ∧
    removeFavorite (removeFavorite ana 42).2 42 = removeFavorite ana 42 :=
  ⟨(removeFavorite_spec ana 42).1, (removeFavorite_spec ana 42).2.2.2⟩

end StreamVibe
